import Mathlib

/-!
Shallow embedding of the order-persistence core of the food-delivery system
(`src/db_manager.py`, class `DatabaseManager`).

The backing MySQL store is modelled as two `DBState` snapshots held by the
manager: `committed` (what any other reader sees) and `pending` (the current
connection's transaction view, including uncommitted writes).  `commit` copies
`pending` into `committed`; `rollback` restores `pending` from `committed`.
Failures of the driver primitives (`connection.cursor`, `cursor.execute`,
`connection.commit`, `connection.rollback`) are injected through explicit
fault oracles, mirroring the `mysql.connector.Error` exceptions the Python
code catches.  Each public method returns `Except PyExn …`: a `.error` result
would mean an exception escaped the method, so `.ok` on every path formalises
the "failures are returned, never thrown" propagation policy.
-/

namespace FoodDelivery

/-- Decidable equality for `Except` results, so that concrete runs of the
embedded operations can be checked by `decide`. -/
instance {ε α : Type} [DecidableEq ε] [DecidableEq α] : DecidableEq (Except ε α) := fun x y =>
  match x, y with
  | .ok a, .ok b =>
    if h : a = b then isTrue (by rw [h])
    else isFalse (fun hc => h (by injection hc))
  | .error a, .error b =>
    if h : a = b then isTrue (by rw [h])
    else isFalse (fun hc => h (by injection hc))
  | .ok _, .error _ => isFalse (fun hc => Except.noConfusion hc)
  | .error _, .ok _ => isFalse (fun hc => Except.noConfusion hc)

/-- Values stored in database cells and result rows. -/
inductive Value where
  | int (n : Int)
  | str (s : String)
  | num (q : Rat)
  | null
deriving DecidableEq, Repr

/-- A result row as produced by `cursor(dictionary=True)`: an ordered mapping
from column name to value. -/
abbrev Row := List (String × Value)

/-- A row of the `orders` table (schema of §6 of the design:
`orders(order_id PK, user_id, restaurant_id, total_amount, delivery_address,
payment_method, order_date)`); `order_id` is storage-assigned and
`order_date` is server-assigned at insert time. -/
structure OrderRow where
  order_id : Int
  user_id : Int
  restaurant_id : Int
  total_amount : Rat
  delivery_address : String
  payment_method : String
  order_date : Int
deriving DecidableEq, Repr

/-- A row of the `order_items` table. -/
structure OrderItemRow where
  order_id : Int
  item_id : Int
  quantity : Int
  item_price : Rat
deriving DecidableEq, Repr

/-- A row of the `restaurants` table (only the columns the core reads). -/
structure RestaurantRow where
  restaurant_id : Int
  name : String
deriving DecidableEq, Repr

/-- A row of the `menu_items` table (only the columns the core reads). -/
structure MenuItemRow where
  item_id : Int
  name : String
deriving DecidableEq, Repr

/-- A snapshot of the relational store.  `nextOrderId` is the AUTO_INCREMENT
counter of `orders`; `now` is the server clock used for the `order_date`
default. -/
structure DBState where
  orders : List OrderRow
  order_items : List OrderItemRow
  restaurants : List RestaurantRow
  menu_items : List MenuItemRow
  nextOrderId : Int
  now : Int
deriving DecidableEq, Repr

/-- One element of the `items` argument of `create_order`: a dict with keys
`item_id`, `quantity`, `price`. -/
structure ItemInput where
  item_id : Int
  quantity : Int
  price : Rat
deriving DecidableEq, Repr

/-- The state of a `DatabaseManager` instance together with its view of the
store: `connected` models `self.connection is not None and
self.connection.is_connected()`; `openCursors` counts the driver cursor
handles currently open on the connection. -/
structure DatabaseManager where
  connected : Bool
  committed : DBState
  pending : DBState
  openCursors : Nat
deriving DecidableEq, Repr

/-- A Python exception escaping a method: `dbError` is `mysql.connector.Error`,
`otherExn` any other `Exception`. -/
inductive PyExn where
  | dbError
  | otherExn
deriving DecidableEq, Repr

/-- Return value of `execute_query`: a list of rows for SELECT statements,
`success` for `True` after a committed write, `failure` for `None`. -/
inductive QueryResult where
  | rows (rs : List Row)
  | success
  | failure
deriving DecidableEq, Repr

/-- Fault oracle for one `execute_query` call: whether `connection.cursor`,
`cursor.execute`, or `connection.commit` raises `mysql.connector.Error`. -/
structure ExecFaults where
  cursorFail : Bool
  execFail : Bool
  commitFail : Bool
deriving DecidableEq, Repr

/-- A fault-free `execute_query` call. -/
def noExecFaults : ExecFaults := ⟨false, false, false⟩

/-- Fault oracle for one `create_order` call: `itemInsertFails` gives, per
line item position, whether that `INSERT INTO order_items` raises (missing
positions default to no fault). -/
structure OrderFaults where
  cursorFail : Bool
  orderInsertFail : Bool
  itemInsertFails : List Bool
  commitFail : Bool
  rollbackFail : Bool
deriving DecidableEq, Repr

/-- A fault-free `create_order` call. -/
def noOrderFaults : OrderFaults := ⟨false, false, [], false, false⟩

/-- Whitespace characters removed by Python `str.strip()` (the ones relevant
to the SQL texts at hand). -/
def wsChar (c : Char) : Bool :=
  c = ' ' ∨ c = '\t' ∨ c = '\n' ∨ c = '\r'

/-- Drop leading whitespace, as the leading half of `str.strip()`. -/
def dropLeadingWs : List Char → List Char
  | [] => []
  | c :: cs => if wsChar c then dropLeadingWs cs else c :: cs

/-- ASCII uppercase conversion, as `str.upper()` acts on the SQL texts. -/
def upChar (c : Char) : Char :=
  if 'a' ≤ c ∧ c ≤ 'z' then Char.ofNat (c.toNat - 32) else c

/-- List-level `str.startswith`. -/
def charsStartWith : List Char → List Char → Bool
  | _, [] => true
  | [], _ :: _ => false
  | c :: cs, p :: ps => c = p && charsStartWith cs ps

/-- The statement classification of `execute_query`, line 125 of
`db_manager.py`: `query.strip().upper().startswith('SELECT')`. -/
def isSelectText (q : String) : Bool :=
  charsStartWith ((dropLeadingWs q.data).map upChar) "SELECT".data

/-- A single SQL statement handed to `execute_query`: its literal text (used
only for the SELECT classification) and its denotation on the store, given
the bound parameters.  Statement execution is atomic: when `cursor.execute`
raises (fault oracle), the store is left untouched. -/
structure Stmt where
  text : String
  run : List Value → DBState → DBState × List Row

/-- Release the per-call cursor handle (the `finally` block). -/
def closeCursor (m : DatabaseManager) : DatabaseManager :=
  { m with openCursors := m.openCursors - 1 }

/-- Embedding of `DatabaseManager.execute_query` (lines 97-139).  Control
flow: no-connection guard, cursor acquisition, `cursor.execute` (either
branch of `if params:` runs the same statement with the given binding),
SELECT classification, commit for writes; every `mysql.connector.Error` is
caught and turned into `failure`, and the `finally` block closes the cursor
on every path on which it was opened. -/
def execute_query (m : DatabaseManager) (stmt : Stmt) (params : List Value)
    (f : ExecFaults) : Except PyExn (QueryResult × DatabaseManager) :=
  if !m.connected then
    .ok (.failure, m)
  else if f.cursorFail then
    .ok (.failure, m)
  else
    let m1 := { m with openCursors := m.openCursors + 1 }
    if f.execFail then
      .ok (.failure, closeCursor m1)
    else
      let step := if params = [] then stmt.run [] m1.pending else stmt.run params m1.pending
      if isSelectText stmt.text then
        .ok (.rows step.2, closeCursor { m1 with pending := step.1 })
      else if f.commitFail then
        .ok (.failure, closeCursor { m1 with pending := step.1 })
      else
        .ok (.success, closeCursor { m1 with pending := step.1, committed := step.1 })

/-- Outcome of one `mysql.connector.connect` attempt: it raises, yields a
connected handle, or yields a handle whose `is_connected()` is false. -/
inductive ConnectOutcome where
  | raises
  | connects
  | notConnected
deriving DecidableEq, Repr

/-- Embedding of `DatabaseManager.connect` (lines 65-86).  On a raising
attempt `self.connection` keeps its previous value; on success the fresh
connection starts a clean transaction view. -/
def connect (m : DatabaseManager) (o : ConnectOutcome) :
    Except PyExn (Bool × DatabaseManager) :=
  match o with
  | .raises => .ok (false, m)
  | .connects => .ok (true, { m with connected := true, pending := m.committed })
  | .notConnected => .ok (false, { m with connected := false, pending := m.committed })

/-- Embedding of `DatabaseManager.disconnect` (lines 88-92): closes the
connection when open, a no-op otherwise. -/
def disconnect (m : DatabaseManager) : Except PyExn (Unit × DatabaseManager) :=
  if m.connected then .ok ((), { m with connected := false }) else .ok ((), m)

/-- Effect of the `INSERT INTO orders …` statement of `create_order`:
appends the order row with the storage-assigned id and server date, returns
that id (`cursor.lastrowid`). -/
def insertOrderRow (s : DBState) (uid rid : Int) (total : Rat)
    (addr pay : String) : DBState × Int :=
  ({ s with
      orders := s.orders ++
        [⟨s.nextOrderId, uid, rid, total, addr, pay, s.now⟩],
      nextOrderId := s.nextOrderId + 1 },
    s.nextOrderId)

/-- Effect of one `INSERT INTO order_items …` statement. -/
def insertItemRow (s : DBState) (oid : Int) (it : ItemInput) : DBState :=
  { s with order_items := s.order_items ++ [⟨oid, it.item_id, it.quantity, it.price⟩] }

/-- The `for item in items:` loop of `create_order`.  `.error s` is the
transaction state at the moment a line-item insert raised
`mysql.connector.Error` (the failed statement itself leaves no partial
write). -/
def insertItems (oid : Int) : DBState → List ItemInput → List Bool → Except DBState DBState
  | s, [], _ => .ok s
  | s, it :: rest, fs =>
    if fs.headD false then .error s
    else insertItems oid (insertItemRow s oid it) rest fs.tail

/-- The `except Error:` arm of `create_order`: attempt `connection.rollback()`.
A successful rollback restores the transaction view to the committed
snapshot; a failing rollback (connection already dropped) raises an
exception that the inner `except Exception: pass` swallows, leaving the
dead connection behind. -/
def rollbackAttempt (m : DatabaseManager) (rollbackFail : Bool) : DatabaseManager :=
  if rollbackFail then { m with connected := false }
  else { m with pending := m.committed }

/-- Embedding of `DatabaseManager.create_order` (lines 171-244).  Control
flow: no-connection guard; cursor acquisition; order insert capturing
`lastrowid`; one item insert per line item; commit; on any
`mysql.connector.Error` along the way, rollback (best effort) and `None`;
the `finally` block closes the cursor whenever one was opened. -/
def create_order (m : DatabaseManager) (uid rid : Int) (items : List ItemInput)
    (total : Rat) (addr pay : String) (f : OrderFaults) :
    Except PyExn (Option Int × DatabaseManager) :=
  if !m.connected then
    .ok (none, m)
  else if f.cursorFail then
    .ok (none, rollbackAttempt m f.rollbackFail)
  else
    let m1 := { m with openCursors := m.openCursors + 1 }
    if f.orderInsertFail then
      .ok (none, closeCursor (rollbackAttempt m1 f.rollbackFail))
    else
      let ins := insertOrderRow m1.pending uid rid total addr pay
      match insertItems ins.2 ins.1 items f.itemInsertFails with
      | .error sDirty =>
          .ok (none, closeCursor (rollbackAttempt { m1 with pending := sDirty } f.rollbackFail))
      | .ok s2 =>
          if f.commitFail then
            .ok (none, closeCursor (rollbackAttempt { m1 with pending := s2 } f.rollbackFail))
          else
            .ok (some ins.2, closeCursor { m1 with pending := s2, committed := s2 })

/-- Insert one joined row into a list already sorted by `order_date`
descending, before the first row whose date does not exceed it (the
behaviour of `ORDER BY o.order_date DESC` on distinct dates; ties are
storage-defined). -/
def insertDescByDate (a : OrderRow × String) :
    List (OrderRow × String) → List (OrderRow × String)
  | [] => [a]
  | b :: l =>
    if b.1.order_date ≤ a.1.order_date then a :: b :: l
    else b :: insertDescByDate a l

/-- Sort joined order rows by `order_date` descending
(`ORDER BY o.order_date DESC`). -/
def sortByDateDesc : List (OrderRow × String) → List (OrderRow × String)
  | [] => []
  | a :: l => insertDescByDate a (sortByDateDesc l)

/-- The `FROM orders o JOIN restaurants r ON o.restaurant_id =
r.restaurant_id WHERE o.user_id = %s` clause: one joined row per matching
(order, restaurant) pair. -/
def userOrdersJoin (s : DBState) (uid : Int) : List (OrderRow × String) :=
  (s.orders.filter (fun o => o.user_id == uid)).flatMap
    (fun o =>
      (s.restaurants.filter (fun r => r.restaurant_id == o.restaurant_id)).map
        (fun r => (o, r.name)))

/-- Result-row shape of the `get_user_orders` SELECT: `o.*` in table column
order, then `r.name as restaurant_name`. -/
def orderJoinRowMap (p : OrderRow × String) : Row :=
  [("order_id", .int p.1.order_id),
   ("user_id", .int p.1.user_id),
   ("restaurant_id", .int p.1.restaurant_id),
   ("total_amount", .num p.1.total_amount),
   ("delivery_address", .str p.1.delivery_address),
   ("payment_method", .str p.1.payment_method),
   ("order_date", .int p.1.order_date),
   ("restaurant_name", .str p.2)]

/-- Denotation of the `get_user_orders` SELECT on a store snapshot. -/
def userOrdersRows (s : DBState) (uid : Int) : List Row :=
  (sortByDateDesc (userOrdersJoin s uid)).map orderJoinRowMap

/-- The SELECT statement issued by `get_user_orders` (lines 248-256),
text reproduced from the source with its leading indentation. -/
def userOrdersStmt : Stmt where
  text := "\n            SELECT o.*, r.name as restaurant_name\n            FROM orders o\n            JOIN restaurants r ON o.restaurant_id = r.restaurant_id\n            WHERE o.user_id = %s\n            ORDER BY o.order_date DESC\n            "
  run := fun params s =>
    match params with
    | [Value.int uid] => (s, userOrdersRows s uid)
    | _ => (s, [])

/-- The `FROM order_items oi JOIN menu_items mi ON oi.item_id = mi.item_id
WHERE oi.order_id = %s` clause. -/
def orderItemsJoin (s : DBState) (oid : Int) : List (OrderItemRow × String) :=
  (s.order_items.filter (fun it => it.order_id == oid)).flatMap
    (fun it =>
      (s.menu_items.filter (fun mi => mi.item_id == it.item_id)).map
        (fun mi => (it, mi.name)))

/-- Result-row shape of the `get_order_items` SELECT: `oi.*` in table column
order, then `mi.name as item_name`. -/
def itemJoinRowMap (p : OrderItemRow × String) : Row :=
  [("order_id", .int p.1.order_id),
   ("item_id", .int p.1.item_id),
   ("quantity", .int p.1.quantity),
   ("item_price", .num p.1.item_price),
   ("item_name", .str p.2)]

/-- Denotation of the `get_order_items` SELECT on a store snapshot. -/
def orderItemsRows (s : DBState) (oid : Int) : List Row :=
  (orderItemsJoin s oid).map itemJoinRowMap

/-- The SELECT statement issued by `get_order_items` (lines 262-269),
text reproduced from the source with its leading indentation. -/
def orderItemsStmt : Stmt where
  text := "\n            SELECT oi.*, mi.name as item_name\n            FROM order_items oi\n            JOIN menu_items mi ON oi.item_id = mi.item_id\n            WHERE oi.order_id = %s\n            "
  run := fun params s =>
    match params with
    | [Value.int oid] => (s, orderItemsRows s oid)
    | _ => (s, [])

/-- Embedding of `DatabaseManager.get_user_orders` (lines 246-258):
`results if isinstance(results, list) else None`. -/
def get_user_orders (m : DatabaseManager) (uid : Int) (f : ExecFaults) :
    Except PyExn (Option (List Row) × DatabaseManager) :=
  match execute_query m userOrdersStmt [Value.int uid] f with
  | .ok (.rows rs, m1) => .ok (some rs, m1)
  | .ok (_, m1) => .ok (none, m1)
  | .error e => .error e

/-- Embedding of `DatabaseManager.get_order_items` (lines 260-271):
`results if isinstance(results, list) else None`. -/
def get_order_items (m : DatabaseManager) (oid : Int) (f : ExecFaults) :
    Except PyExn (Option (List Row) × DatabaseManager) :=
  match execute_query m orderItemsStmt [Value.int oid] f with
  | .ok (.rows rs, m1) => .ok (some rs, m1)
  | .ok (_, m1) => .ok (none, m1)
  | .error e => .error e

/-- Whether the `for item in items:` loop of `create_order` hits a faulted
line-item insert (position-wise, mirroring `insertItems`). -/
def itemLoopFails : List ItemInput → List Bool → Bool
  | [], _ => false
  | _ :: rest, fs => fs.headD false || itemLoopFails rest fs.tail

/-- Cumulative effect of a fault-free run of the item-insert loop. -/
def appendItemRows (oid : Int) : DBState → List ItemInput → DBState
  | s, [] => s
  | s, it :: rest => appendItemRows oid (insertItemRow s oid it) rest

/-- A store with one restaurant and two menu items, no orders yet; used to
instantiate the theorems on the concrete scenario of §8 of the design. -/
def sampleState : DBState :=
  { orders := [], order_items := [],
    restaurants := [⟨3, "Pasta Place"⟩],
    menu_items := [⟨1, "Margherita"⟩, ⟨2, "Cola"⟩],
    nextOrderId := 10, now := 100 }

/-- A manager connected to `sampleState`. -/
def sampleMgr : DatabaseManager := ⟨true, sampleState, sampleState, 0⟩

/-- A manager whose connection is absent. -/
def sampleMgrDown : DatabaseManager := ⟨false, sampleState, sampleState, 0⟩

theorem headD_eq_getD_zero (fs : List Bool) : fs.headD false = fs.getD 0 false := by
  cases fs <;> rfl

theorem tail_getD_bool (fs : List Bool) (k : Nat) :
    fs.tail.getD k false = fs.getD (k + 1) false := by
  cases fs <;> rfl

theorem itemLoopFails_iff (items : List ItemInput) :
    ∀ fs : List Bool, itemLoopFails items fs = true ↔
      ∃ k, k < items.length ∧ fs.getD k false = true := by
  induction items with
  | nil => intro fs; simp [itemLoopFails]
  | cons it rest ih =>
    intro fs
    simp only [itemLoopFails, Bool.or_eq_true, ih, headD_eq_getD_zero, tail_getD_bool,
      List.length_cons]
    constructor
    · rintro (h | ⟨k, hk, hg⟩)
      · exact ⟨0, Nat.succ_pos _, h⟩
      · exact ⟨k + 1, Nat.succ_lt_succ hk, hg⟩
    · rintro ⟨k, hk, hg⟩
      cases k with
      | zero => exact Or.inl hg
      | succ k => exact Or.inr ⟨k, Nat.lt_of_succ_lt_succ hk, hg⟩

theorem insertItems_of_no_fault (oid : Int) :
    ∀ (items : List ItemInput) (s : DBState) (fs : List Bool),
      itemLoopFails items fs = false →
      insertItems oid s items fs = .ok (appendItemRows oid s items) := by
  intro items
  induction items with
  | nil => intro s fs _; rfl
  | cons it rest ih =>
    intro s fs h
    simp only [itemLoopFails, Bool.or_eq_false_iff] at h
    simp only [insertItems, h.1, if_false, appendItemRows]
    exact ih _ _ h.2

theorem insertItems_of_fault (oid : Int) :
    ∀ (items : List ItemInput) (s : DBState) (fs : List Bool),
      itemLoopFails items fs = true →
      ∃ sd, insertItems oid s items fs = .error sd := by
  intro items
  induction items with
  | nil => intro s fs h; simp [itemLoopFails] at h
  | cons it rest ih =>
    intro s fs h
    simp only [itemLoopFails, Bool.or_eq_true] at h
    cases hh : fs.headD false with
    | true => exact ⟨s, by simp only [insertItems, hh, if_true]⟩
    | false =>
      have h2 : itemLoopFails rest fs.tail = true := by
        rcases h with h | h
        · rw [hh] at h; exact absurd h (by simp)
        · exact h
      obtain ⟨sd, hsd⟩ := ih (insertItemRow s oid it) fs.tail h2
      exact ⟨sd, by simp only [insertItems, hh, if_false]; exact hsd⟩

theorem appendItemRows_orders (oid : Int) :
    ∀ (items : List ItemInput) (s : DBState),
      (appendItemRows oid s items).orders = s.orders := by
  intro items
  induction items with
  | nil => intro s; rfl
  | cons it rest ih => intro s; simpa [appendItemRows, insertItemRow] using ih (insertItemRow s oid it)

theorem appendItemRows_order_items (oid : Int) :
    ∀ (items : List ItemInput) (s : DBState),
      (appendItemRows oid s items).order_items =
        s.order_items ++ items.map (fun it => ⟨oid, it.item_id, it.quantity, it.price⟩) := by
  intro items
  induction items with
  | nil => intro s; simp [appendItemRows]
  | cons it rest ih =>
    intro s
    have step : appendItemRows oid s (it :: rest) = appendItemRows oid (insertItemRow s oid it) rest := rfl
    rw [step, ih (insertItemRow s oid it)]
    simp [insertItemRow, List.append_assoc]

theorem execute_query_ok_shape (m : DatabaseManager) (stmt : Stmt) (params : List Value)
    (f : ExecFaults) : ∃ r m1, execute_query m stmt params f = .ok (r, m1) := by
  unfold execute_query
  repeat' split
  all_goals exact ⟨_, _, rfl⟩

/-- C5: with no open connection, `execute_query` and `create_order` fail
before attempting any statement, leaving the manager (connection flag,
committed and pending store, cursor count) completely unchanged. -/
theorem no_connection_fails_fast (m : DatabaseManager) (stmt : Stmt) (params : List Value)
    (f : ExecFaults) (uid rid : Int) (items : List ItemInput) (total : Rat)
    (addr pay : String) (g : OrderFaults) (h : m.connected = false) :
    execute_query m stmt params f = .ok (.failure, m) ∧
    create_order m uid rid items total addr pay g = .ok (none, m) := by
  refine ⟨?_, ?_⟩
  · simp [execute_query, h]
  · simp [create_order, h]

/-- Witness for C5 at a concrete disconnected manager. -/
theorem no_connection_fails_fast_witness :
    execute_query sampleMgrDown userOrdersStmt [Value.int 7] noExecFaults
      = .ok (.failure, sampleMgrDown) ∧
    create_order sampleMgrDown 7 3 [⟨1, 2, 10⟩] 25 "12 Main St" "cash" noOrderFaults
      = .ok (none, sampleMgrDown) :=
  no_connection_fails_fast sampleMgrDown userOrdersStmt [Value.int 7] noExecFaults
    7 3 [⟨1, 2, 10⟩] 25 "12 Main St" "cash" noOrderFaults rfl

/-- C9: every `execute_query` call (rows, success, or failure; connection
present or not) returns with exactly as many cursor handles open as it
started with: the per-call cursor is released on every exit path. -/
theorem execute_query_releases_cursor (m : DatabaseManager) (stmt : Stmt)
    (params : List Value) (f : ExecFaults) :
    (execute_query m stmt params f).map (fun p => p.2.openCursors) = .ok m.openCursors := by
  unfold execute_query closeCursor
  repeat' split
  all_goals simp [Except.map]

/-- C2: none of the public operations lets an exception escape: for every
input and every fault injection, `connect`, `disconnect`, `execute_query`,
`create_order`, `get_user_orders` and `get_order_items` return a value
(`.ok`), reporting failure only through their explicit failure results. -/
theorem failures_returned_not_thrown (m : DatabaseManager) (o : ConnectOutcome)
    (stmt : Stmt) (params : List Value) (f f1 f2 : ExecFaults) (uid rid oid : Int)
    (items : List ItemInput) (total : Rat) (addr pay : String) (g : OrderFaults) :
    (connect m o).isOk = true ∧ (disconnect m).isOk = true ∧
    (execute_query m stmt params f).isOk = true ∧
    (create_order m uid rid items total addr pay g).isOk = true ∧
    (get_user_orders m uid f1).isOk = true ∧
    (get_order_items m oid f2).isOk = true := by
  refine ⟨?_, ?_, ?_, ?_, ?_, ?_⟩
  · cases o <;> simp [connect, Except.isOk, Except.toBool]
  · unfold disconnect; split <;> simp [Except.isOk, Except.toBool]
  · obtain ⟨r, m1, hr⟩ := execute_query_ok_shape m stmt params f
    simp [hr, Except.isOk, Except.toBool]
  · unfold create_order
    repeat' split
    all_goals cases h : (insertItems (insertOrderRow m.pending uid rid total addr pay).2
      (insertOrderRow m.pending uid rid total addr pay).1 items g.itemInsertFails) <;>
      simp [h, Except.isOk, Except.toBool]
  · obtain ⟨r, m1, hr⟩ := execute_query_ok_shape m userOrdersStmt [Value.int uid] f1
    unfold get_user_orders
    rw [hr]
    cases r <;> simp [Except.isOk, Except.toBool]
  · obtain ⟨r, m1, hr⟩ := execute_query_ok_shape m orderItemsStmt [Value.int oid] f2
    unfold get_order_items
    rw [hr]
    cases r <;> simp [Except.isOk, Except.toBool]

theorem itemLoopFails_nil : ∀ items : List ItemInput, itemLoopFails items [] = false := by
  intro items
  cases items <;> simp [itemLoopFails] <;> exact itemLoopFails_nil _

theorem isSelect_userOrdersStmt : isSelectText userOrdersStmt.text = true := by decide

theorem isSelect_orderItemsStmt : isSelectText orderItemsStmt.text = true := by decide

theorem userOrdersStmt_run (uid : Int) (s : DBState) :
    userOrdersStmt.run [Value.int uid] s = (s, userOrdersRows s uid) := rfl

theorem orderItemsStmt_run (oid : Int) (s : DBState) :
    orderItemsStmt.run [Value.int oid] s = (s, orderItemsRows s oid) := rfl

/-- C3: when a failing `create_order` also fails to roll back, the reported
outcome is unchanged: the call still returns the original failure (`None`,
no order id), exactly as it would had the rollback succeeded. -/
theorem rollback_failure_keeps_outcome (m : DatabaseManager) (uid rid : Int)
    (items : List ItemInput) (total : Rat) (addr pay : String) (f : OrderFaults)
    (hconn : m.connected = true)
    (hfail : f.cursorFail = true ∨ f.orderInsertFail = true ∨
      itemLoopFails items f.itemInsertFails = true ∨ f.commitFail = true)
    (hrb : f.rollbackFail = true) :
    (create_order m uid rid items total addr pay f).map Prod.fst = .ok none ∧
    (create_order m uid rid items total addr pay f).map Prod.fst =
      (create_order m uid rid items total addr pay
        { f with rollbackFail := false }).map Prod.fst := by
  by_cases hcur : f.cursorFail = true
  · constructor <;> simp [create_order, hconn, hcur, Except.map]
  · rw [Bool.not_eq_true] at hcur
    by_cases hord : f.orderInsertFail = true
    · constructor <;> simp [create_order, hconn, hcur, hord, Except.map]
    · rw [Bool.not_eq_true] at hord
      by_cases hloop : itemLoopFails items f.itemInsertFails = true
      · obtain ⟨sd, hsd⟩ := insertItems_of_fault
          (insertOrderRow m.pending uid rid total addr pay).2 items
          (insertOrderRow m.pending uid rid total addr pay).1 f.itemInsertFails hloop
        constructor <;> simp [create_order, hconn, hcur, hord, hsd, Except.map]
      · have hcommit : f.commitFail = true := by
          rcases hfail with h | h | h | h
          · exact absurd h (by simp [hcur])
          · exact absurd h (by simp [hord])
          · exact absurd h hloop
          · exact h
        rw [Bool.not_eq_true] at hloop
        have hok := insertItems_of_no_fault
          (insertOrderRow m.pending uid rid total addr pay).2 items
          (insertOrderRow m.pending uid rid total addr pay).1 f.itemInsertFails hloop
        constructor <;> simp [create_order, hconn, hcur, hord, hok, hcommit, Except.map]

/-- Witness for C3: second item insert fails and rollback fails too. -/
theorem rollback_failure_keeps_outcome_witness :
    (create_order sampleMgr 7 3 [⟨1, 2, 10⟩, ⟨2, 1, 5⟩] 25 "12 Main St" "cash"
      ⟨false, false, [false, true], false, true⟩).map Prod.fst = .ok none ∧
    (create_order sampleMgr 7 3 [⟨1, 2, 10⟩, ⟨2, 1, 5⟩] 25 "12 Main St" "cash"
      ⟨false, false, [false, true], false, true⟩).map Prod.fst =
      (create_order sampleMgr 7 3 [⟨1, 2, 10⟩, ⟨2, 1, 5⟩] 25 "12 Main St" "cash"
        { (⟨false, false, [false, true], false, true⟩ : OrderFaults) with
          rollbackFail := false }).map Prod.fst :=
  rollback_failure_keeps_outcome sampleMgr 7 3 [⟨1, 2, 10⟩, ⟨2, 1, 5⟩] 25
    "12 Main St" "cash" ⟨false, false, [false, true], false, true⟩
    rfl (by right; right; left; decide) rfl

/-- C6: `create_order` neither recomputes nor verifies `total_amount`.  The
returned outcome (order id or `None`) is identical for any two totals under
any fault injection, and a fault-free call persists the caller-supplied
total verbatim in the committed order row, regardless of the line items. -/
theorem create_order_trusts_total (m : DatabaseManager) (uid rid : Int)
    (items : List ItemInput) (total total' : Rat) (addr pay : String) (f : OrderFaults)
    (hconn : m.connected = true) :
    (create_order m uid rid items total addr pay f).map Prod.fst =
      (create_order m uid rid items total' addr pay f).map Prod.fst ∧
    (create_order m uid rid items total addr pay noOrderFaults).map
        (fun p => p.2.committed.orders) =
      .ok (m.pending.orders ++
        [⟨m.pending.nextOrderId, uid, rid, total, addr, pay, m.pending.now⟩]) := by
  constructor
  · by_cases hcur : f.cursorFail = true
    · simp [create_order, hconn, hcur, Except.map]
    · rw [Bool.not_eq_true] at hcur
      by_cases hord : f.orderInsertFail = true
      · simp [create_order, hconn, hcur, hord, Except.map]
      · rw [Bool.not_eq_true] at hord
        by_cases hloop : itemLoopFails items f.itemInsertFails = true
        · obtain ⟨sd, hsd⟩ := insertItems_of_fault
            (insertOrderRow m.pending uid rid total addr pay).2 items
            (insertOrderRow m.pending uid rid total addr pay).1 f.itemInsertFails hloop
          obtain ⟨sd', hsd'⟩ := insertItems_of_fault
            (insertOrderRow m.pending uid rid total' addr pay).2 items
            (insertOrderRow m.pending uid rid total' addr pay).1 f.itemInsertFails hloop
          simp [create_order, hconn, hcur, hord, hsd, hsd', Except.map]
        · rw [Bool.not_eq_true] at hloop
          have hok := insertItems_of_no_fault
            (insertOrderRow m.pending uid rid total addr pay).2 items
            (insertOrderRow m.pending uid rid total addr pay).1 f.itemInsertFails hloop
          have hok' := insertItems_of_no_fault
            (insertOrderRow m.pending uid rid total' addr pay).2 items
            (insertOrderRow m.pending uid rid total' addr pay).1 f.itemInsertFails hloop
          by_cases hcommit : f.commitFail = true
          · simp [create_order, hconn, hcur, hord, hok, hok', hcommit, Except.map]
          · rw [Bool.not_eq_true] at hcommit
            simp only [create_order, hconn, hcur, hord, hok, hok', hcommit, Except.map,
              Bool.not_true, if_false, if_true, Bool.false_eq_true, ite_false, ite_true]
            simp [insertOrderRow]
  · have hok := insertItems_of_no_fault
      (insertOrderRow m.pending uid rid total addr pay).2 items
      (insertOrderRow m.pending uid rid total addr pay).1 [] (itemLoopFails_nil items)
    simp [create_order, hconn, noOrderFaults, hok, Except.map, closeCursor,
      appendItemRows_orders]
    simp [insertOrderRow]

/-- Witness for C6: totals 25 and 999 give the same outcome, and 25 is
persisted verbatim. -/
theorem create_order_trusts_total_witness :
    (create_order sampleMgr 7 3 [⟨1, 2, 10⟩, ⟨2, 1, 5⟩] 25 "12 Main St" "cash"
        noOrderFaults).map Prod.fst =
      (create_order sampleMgr 7 3 [⟨1, 2, 10⟩, ⟨2, 1, 5⟩] 999 "12 Main St" "cash"
        noOrderFaults).map Prod.fst ∧
    (create_order sampleMgr 7 3 [⟨1, 2, 10⟩, ⟨2, 1, 5⟩] 25 "12 Main St" "cash"
        noOrderFaults).map (fun p => p.2.committed.orders) =
      .ok (sampleMgr.pending.orders ++
        [⟨sampleMgr.pending.nextOrderId, 7, 3, 25, "12 Main St", "cash",
          sampleMgr.pending.now⟩]) :=
  create_order_trusts_total sampleMgr 7 3 [⟨1, 2, 10⟩, ⟨2, 1, 5⟩] 25 999
    "12 Main St" "cash" noOrderFaults rfl

/-- C10: an empty `items` sequence is not rejected: with an open connection
and no faults, `create_order` inserts the order row, commits it durably, and
returns the new order id, leaving an order with zero line items (a later
`get_order_items` on the new id returns the empty list). -/
theorem create_order_accepts_empty_items (m : DatabaseManager) (uid rid : Int)
    (total : Rat) (addr pay : String)
    (hconn : m.connected = true)
    (hfresh : ∀ it ∈ m.pending.order_items, it.order_id ≠ m.pending.nextOrderId) :
    (create_order m uid rid [] total addr pay noOrderFaults).map
        (fun p => (p.1, p.2.committed.orders, p.2.committed.order_items)) =
      .ok (some m.pending.nextOrderId,
        m.pending.orders ++ [⟨m.pending.nextOrderId, uid, rid, total, addr, pay, m.pending.now⟩],
        m.pending.order_items) ∧
    ((create_order m uid rid [] total addr pay noOrderFaults).bind
        (fun p => get_order_items p.2 m.pending.nextOrderId noExecFaults)).map Prod.fst =
      .ok (some []) := by
  have hfilter : m.pending.order_items.filter
      (fun it => it.order_id == m.pending.nextOrderId) = [] := by
    rw [List.filter_eq_nil_iff]
    intro it hit
    simpa [beq_eq_false_iff_ne] using hfresh it hit
  constructor
  · simp [create_order, hconn, noOrderFaults, insertItems, Except.map, closeCursor,
      insertOrderRow]
  · simp [create_order, hconn, noOrderFaults, insertItems, Except.map, Except.bind,
      get_order_items, execute_query, isSelect_orderItemsStmt, noExecFaults, closeCursor,
      orderItemsStmt_run, orderItemsRows, orderItemsJoin, insertOrderRow, hfilter]

/-- Witness for C10 on the sample store. -/
theorem create_order_accepts_empty_items_witness :
    (create_order sampleMgr 7 3 [] 25 "12 Main St" "cash" noOrderFaults).map
        (fun p => (p.1, p.2.committed.orders, p.2.committed.order_items)) =
      .ok (some sampleMgr.pending.nextOrderId,
        sampleMgr.pending.orders ++
          [⟨sampleMgr.pending.nextOrderId, 7, 3, 25, "12 Main St", "cash",
            sampleMgr.pending.now⟩],
        sampleMgr.pending.order_items) ∧
    ((create_order sampleMgr 7 3 [] 25 "12 Main St" "cash" noOrderFaults).bind
        (fun p => get_order_items p.2 sampleMgr.pending.nextOrderId noExecFaults)).map
        Prod.fst = .ok (some []) :=
  create_order_accepts_empty_items sampleMgr 7 3 25 "12 Main St" "cash" rfl
    (by decide)

/-- C4: with an open connection, `execute_query` classifies the statement by
whether its text, after stripping and uppercasing, starts with `SELECT`:
a SELECT returns the ordered row sequence produced by the statement and does
not commit; a non-SELECT commits its effect and returns `True`; and any
execution error (cursor acquisition, statement execution, or commit) yields
`None` with the committed store unchanged. -/
theorem execute_query_contract (m : DatabaseManager) (stmt : Stmt) (params : List Value)
    (f : ExecFaults) (hconn : m.connected = true) :
    (f.cursorFail = false → f.execFail = false → isSelectText stmt.text = true →
      (execute_query m stmt params f).map (fun p => (p.1, p.2.committed)) =
        .ok (.rows (stmt.run params m.pending).2, m.committed)) ∧
    (f.cursorFail = false → f.execFail = false → f.commitFail = false →
      isSelectText stmt.text = false →
      (execute_query m stmt params f).map (fun p => (p.1, p.2.committed)) =
        .ok (.success, (stmt.run params m.pending).1)) ∧
    (f.cursorFail = true ∨ f.execFail = true ∨
        (f.commitFail = true ∧ isSelectText stmt.text = false) →
      (execute_query m stmt params f).map (fun p => (p.1, p.2.committed)) =
        .ok (.failure, m.committed)) := by
  refine ⟨?_, ?_, ?_⟩
  · intro hcur hexec hsel
    by_cases hp : params = []
    · subst hp; simp [execute_query, hconn, hcur, hexec, hsel, closeCursor, Except.map]
    · simp [execute_query, hconn, hcur, hexec, hsel, hp, closeCursor, Except.map]
  · intro hcur hexec hcommit hsel
    by_cases hp : params = []
    · subst hp
      simp [execute_query, hconn, hcur, hexec, hsel, hcommit, closeCursor, Except.map]
    · simp [execute_query, hconn, hcur, hexec, hsel, hcommit, hp, closeCursor, Except.map]
  · intro herr
    rcases herr with h | h | ⟨h, hsel⟩
    · simp [execute_query, hconn, h, Except.map]
    · by_cases hcur : f.cursorFail = true
      · simp [execute_query, hconn, hcur, Except.map]
      · rw [Bool.not_eq_true] at hcur
        simp [execute_query, hconn, hcur, h, closeCursor, Except.map]
    · by_cases hcur : f.cursorFail = true
      · simp [execute_query, hconn, hcur, Except.map]
      · rw [Bool.not_eq_true] at hcur
        by_cases hexec : f.execFail = true
        · simp [execute_query, hconn, hcur, hexec, closeCursor, Except.map]
        · rw [Bool.not_eq_true] at hexec
          by_cases hp : params = []
          · subst hp
            simp [execute_query, hconn, hcur, hexec, hsel, h, closeCursor, Except.map]
          · simp [execute_query, hconn, hcur, hexec, hsel, h, hp, closeCursor, Except.map]

/-- Witness for C4, applying the contract to the `get_user_orders` SELECT on
the sample store, fault-free. -/
theorem execute_query_contract_witness :
    (noExecFaults.cursorFail = false → noExecFaults.execFail = false →
      isSelectText userOrdersStmt.text = true →
      (execute_query sampleMgr userOrdersStmt [Value.int 7] noExecFaults).map
          (fun p => (p.1, p.2.committed)) =
        .ok (.rows (userOrdersStmt.run [Value.int 7] sampleMgr.pending).2,
          sampleMgr.committed)) ∧
    (noExecFaults.cursorFail = false → noExecFaults.execFail = false →
      noExecFaults.commitFail = false → isSelectText userOrdersStmt.text = false →
      (execute_query sampleMgr userOrdersStmt [Value.int 7] noExecFaults).map
          (fun p => (p.1, p.2.committed)) =
        .ok (.success, (userOrdersStmt.run [Value.int 7] sampleMgr.pending).1)) ∧
    (noExecFaults.cursorFail = true ∨ noExecFaults.execFail = true ∨
        (noExecFaults.commitFail = true ∧ isSelectText userOrdersStmt.text = false) →
      (execute_query sampleMgr userOrdersStmt [Value.int 7] noExecFaults).map
          (fun p => (p.1, p.2.committed)) =
        .ok (.failure, sampleMgr.committed)) :=
  execute_query_contract sampleMgr userOrdersStmt [Value.int 7] noExecFaults rfl

/-- C8: with an open connection and no faults, a user with no orders gets the
empty list (not a failure) from `get_user_orders`; `get_order_items` returns
the empty list when no item row carries the requested order id; and the
result of `get_order_items` never depends on the `orders` table at all, so
"order exists with no items" and "no such order" are indistinguishable. -/
theorem empty_read_results (m : DatabaseManager) (uid oid : Int)
    (hconn : m.connected = true)
    (hnoorders : forall o, o ∈ m.pending.orders → o.user_id ≠ uid)
    (hnoitems : forall it, it ∈ m.pending.order_items → it.order_id ≠ oid) :
    (get_user_orders m uid noExecFaults).map Prod.fst = .ok (some []) ∧
    (get_order_items m oid noExecFaults).map Prod.fst = .ok (some []) ∧
    (forall os : List OrderRow,
      (get_order_items { m with pending := { m.pending with orders := os } } oid
          noExecFaults).map Prod.fst =
        (get_order_items m oid noExecFaults).map Prod.fst) := by
  have hf1 : m.pending.orders.filter (fun o => o.user_id == uid) = [] := by
    rw [List.filter_eq_nil_iff]
    intro o ho
    simpa [beq_eq_false_iff_ne] using hnoorders o ho
  have hf2 : m.pending.order_items.filter (fun it => it.order_id == oid) = [] := by
    rw [List.filter_eq_nil_iff]
    intro it hit
    simpa [beq_eq_false_iff_ne] using hnoitems it hit
  refine ⟨?_, ?_, ?_⟩
  · simp [get_user_orders, execute_query, hconn, noExecFaults, isSelect_userOrdersStmt,
      userOrdersStmt_run, userOrdersRows, userOrdersJoin, hf1, sortByDateDesc, Except.map]
  · simp [get_order_items, execute_query, hconn, noExecFaults, isSelect_orderItemsStmt,
      orderItemsStmt_run, orderItemsRows, orderItemsJoin, hf2, Except.map]
  · intro os
    simp [get_order_items, execute_query, hconn, noExecFaults, isSelect_orderItemsStmt,
      orderItemsStmt_run, orderItemsRows, orderItemsJoin, Except.map]

/-- Witness for C8: user 42 has no orders and order 99 has no items in the
sample store. -/
theorem empty_read_results_witness :
    (get_user_orders sampleMgr 42 noExecFaults).map Prod.fst = .ok (some []) ∧
    (get_order_items sampleMgr 99 noExecFaults).map Prod.fst = .ok (some []) ∧
    (forall os : List OrderRow,
      (get_order_items { sampleMgr with
          pending := { sampleMgr.pending with orders := os } } 99 noExecFaults).map
          Prod.fst =
        (get_order_items sampleMgr 99 noExecFaults).map Prod.fst) :=
  empty_read_results sampleMgr 42 99 rfl (by decide) (by decide)

theorem insertDescByDate_perm (a : OrderRow × String) (l : List (OrderRow × String)) :
    (insertDescByDate a l).Perm (a :: l) := by
  induction l with
  | nil => exact List.Perm.refl _
  | cons b t ih =>
    simp only [insertDescByDate]
    split
    · exact List.Perm.refl _
    · exact (List.Perm.cons b ih).trans (List.Perm.swap a b t)

theorem sortByDateDesc_perm (l : List (OrderRow × String)) :
    (sortByDateDesc l).Perm l := by
  induction l with
  | nil => exact List.Perm.refl _
  | cons a t ih =>
    exact (insertDescByDate_perm a (sortByDateDesc t)).trans (List.Perm.cons a ih)

theorem insertDescByDate_pairwise (a : OrderRow × String)
    (l : List (OrderRow × String))
    (h : l.Pairwise (fun x y => y.1.order_date ≤ x.1.order_date)) :
    (insertDescByDate a l).Pairwise (fun x y => y.1.order_date ≤ x.1.order_date) := by
  induction l with
  | nil => simp [insertDescByDate]
  | cons b t ih =>
    rcases List.pairwise_cons.mp h with ⟨hb, ht⟩
    simp only [insertDescByDate]
    split
    · rename_i hba
      refine List.pairwise_cons.mpr ⟨?_, h⟩
      intro x hx
      rcases List.mem_cons.mp hx with rfl | hx
      · exact hba
      · exact le_trans (hb x hx) hba
    · rename_i hba
      refine List.pairwise_cons.mpr ⟨?_, ih ht⟩
      intro x hx
      rcases List.mem_cons.mp ((insertDescByDate_perm a t).mem_iff.mp hx) with rfl | hx
      · exact (not_le.mp hba).le
      · exact hb x hx

theorem sortByDateDesc_pairwise (l : List (OrderRow × String)) :
    (sortByDateDesc l).Pairwise (fun x y => y.1.order_date ≤ x.1.order_date) := by
  induction l with
  | nil => simp [sortByDateDesc]
  | cons a t ih => exact insertDescByDate_pairwise a (sortByDateDesc t) ih

theorem sortByDateDesc_of_three (L : List (OrderRow × String))
    (o1 o2 o3 : OrderRow) (n1 n2 n3 : String)
    (hperm : L.Perm [(o1, n1), (o2, n2), (o3, n3)])
    (h12 : o1.order_date < o2.order_date) (h23 : o2.order_date < o3.order_date) :
    sortByDateDesc L = [(o3, n3), (o2, n2), (o1, n1)] := by
  have hanti : IsAntisymm (OrderRow × String)
      (fun x y => y.1.order_date < x.1.order_date) :=
    ⟨fun a b h1 h2 => absurd (lt_trans h1 h2) (lt_irrefl _)⟩
  have perm1 : (sortByDateDesc L).Perm [(o1, n1), (o2, n2), (o3, n3)] :=
    (sortByDateDesc_perm L).trans hperm
  have hrev : ([(o3, n3), (o2, n2), (o1, n1)] : List (OrderRow × String)) =
      [(o1, n1), (o2, n2), (o3, n3)].reverse := rfl
  have perm2 : (sortByDateDesc L).Perm [(o3, n3), (o2, n2), (o1, n1)] := by
    rw [hrev]
    exact perm1.trans (List.reverse_perm _).symm
  have hne : List.Pairwise (fun x y : OrderRow × String =>
      x.1.order_date ≠ y.1.order_date) [(o1, n1), (o2, n2), (o3, n3)] := by
    refine List.pairwise_cons.mpr ⟨?_, List.pairwise_cons.mpr ⟨?_, ?_⟩⟩
    · intro x hx
      rcases List.mem_cons.mp hx with rfl | hx
      · exact ne_of_lt h12
      · rcases List.mem_cons.mp hx with rfl | hx
        · exact ne_of_lt (lt_trans h12 h23)
        · cases hx
    · intro x hx
      simp at hx; subst hx; exact ne_of_lt h23
    · simp
  have hneL : List.Pairwise (fun x y : OrderRow × String =>
      x.1.order_date ≠ y.1.order_date) (sortByDateDesc L) :=
    (List.Perm.pairwise_iff (fun hxy => hxy.symm) perm1).mpr hne
  have hsortedL : List.Pairwise (fun x y : OrderRow × String =>
      y.1.order_date < x.1.order_date) (sortByDateDesc L) :=
    ((sortByDateDesc_pairwise L).and hneL).imp
      (fun hp => lt_of_le_of_ne hp.1 hp.2.symm)
  have hsortedT : List.Pairwise (fun x y : OrderRow × String =>
      y.1.order_date < x.1.order_date) [(o3, n3), (o2, n2), (o1, n1)] := by
    refine List.pairwise_cons.mpr ⟨?_, List.pairwise_cons.mpr ⟨?_, ?_⟩⟩
    · intro x hx
      rcases List.mem_cons.mp hx with rfl | hx
      · exact h23
      · rcases List.mem_cons.mp hx with rfl | hx
        · exact lt_trans h12 h23
        · cases hx
    · intro x hx
      simp at hx; subst hx; exact h12
    · simp
  exact List.eq_of_perm_of_sorted perm2 hsortedL hsortedT

/-- C7: `get_user_orders` returns the user's (restaurant-joined) orders
sorted strictly by order timestamp descending: when the join for the user
consists, in any storage order, of three orders placed at times T1 < T2 < T3,
the result lists them newest first, [T3, T2, T1]. -/
theorem get_user_orders_newest_first (m : DatabaseManager) (uid : Int)
    (o1 o2 o3 : OrderRow) (n1 n2 n3 : String)
    (hconn : m.connected = true)
    (hjoin : (userOrdersJoin m.pending uid).Perm [(o1, n1), (o2, n2), (o3, n3)])
    (h12 : o1.order_date < o2.order_date) (h23 : o2.order_date < o3.order_date) :
    (get_user_orders m uid noExecFaults).map Prod.fst =
      .ok (some [orderJoinRowMap (o3, n3), orderJoinRowMap (o2, n2),
        orderJoinRowMap (o1, n1)]) := by
  have key := sortByDateDesc_of_three (userOrdersJoin m.pending uid)
    o1 o2 o3 n1 n2 n3 hjoin h12 h23
  simp [get_user_orders, execute_query, hconn, noExecFaults, isSelect_userOrdersStmt,
    userOrdersStmt_run, userOrdersRows, key, Except.map]

/-- Witness for C7: three orders of user 7 stored out of order (dates 100,
300, 200) come back as 300, 200, 100. -/
theorem get_user_orders_newest_first_witness :
    (get_user_orders
        ⟨true, sampleState,
          { sampleState with orders := [⟨10, 7, 3, 1, "a", "cash", 100⟩,
            ⟨12, 7, 3, 3, "a", "cash", 300⟩, ⟨11, 7, 3, 2, "a", "cash", 200⟩] }, 0⟩
        7 noExecFaults).map Prod.fst =
      .ok (some [orderJoinRowMap (⟨12, 7, 3, 3, "a", "cash", 300⟩, "Pasta Place"),
        orderJoinRowMap (⟨11, 7, 3, 2, "a", "cash", 200⟩, "Pasta Place"),
        orderJoinRowMap (⟨10, 7, 3, 1, "a", "cash", 100⟩, "Pasta Place")]) :=
  get_user_orders_newest_first
    ⟨true, sampleState,
      { sampleState with orders := [⟨10, 7, 3, 1, "a", "cash", 100⟩,
        ⟨12, 7, 3, 3, "a", "cash", 300⟩, ⟨11, 7, 3, 2, "a", "cash", 200⟩] }, 0⟩
    7 ⟨10, 7, 3, 1, "a", "cash", 100⟩ ⟨11, 7, 3, 2, "a", "cash", 200⟩
    ⟨12, 7, 3, 3, "a", "cash", 300⟩ "Pasta Place" "Pasta Place" "Pasta Place"
    rfl
    (by
      have he : userOrdersJoin
          ({ sampleState with orders := [⟨10, 7, 3, 1, "a", "cash", 100⟩,
            ⟨12, 7, 3, 3, "a", "cash", 300⟩, ⟨11, 7, 3, 2, "a", "cash", 200⟩] }) 7 =
          [(⟨10, 7, 3, 1, "a", "cash", 100⟩, "Pasta Place"),
           (⟨12, 7, 3, 3, "a", "cash", 300⟩, "Pasta Place"),
           (⟨11, 7, 3, 2, "a", "cash", 200⟩, "Pasta Place")] := by decide
      rw [he]
      refine List.Perm.cons _ ?_
      exact List.Perm.swap _ _ _)
    (by decide) (by decide)

/-- C1: if any line-item insert fails after the order row was inserted, the
whole transaction is rolled back and `create_order` reports failure: no
order id is returned, the committed store is exactly what it was before the
attempt, and a subsequent `get_order_items` on the attempted id sees no
rows while a subsequent `get_user_orders` (for any user) sees exactly the
pre-attempt orders — or, if the rollback left a dead connection, the reads
return the explicit failure result; in no case is any row of the attempt
visible. -/
theorem create_order_atomic_on_item_failure (m : DatabaseManager) (uid rid : Int)
    (items : List ItemInput) (total : Rat) (addr pay : String) (f : OrderFaults)
    (hconn : m.connected = true)
    (hclean : m.pending = m.committed)
    (hcur : f.cursorFail = false)
    (hord : f.orderInsertFail = false)
    (hfail : ∃ k, k < items.length ∧ f.itemInsertFails.getD k false = true)
    (hfresh : ∀ it ∈ m.committed.order_items, it.order_id ≠ m.committed.nextOrderId) :
    (create_order m uid rid items total addr pay f).map Prod.fst = .ok none ∧
    (create_order m uid rid items total addr pay f).map (fun p => p.2.committed) =
      .ok m.committed ∧
    (((create_order m uid rid items total addr pay f).bind
        (fun p => get_order_items p.2 m.committed.nextOrderId noExecFaults)).map
        Prod.fst = .ok (some []) ∨
      ((create_order m uid rid items total addr pay f).bind
        (fun p => get_order_items p.2 m.committed.nextOrderId noExecFaults)).map
        Prod.fst = .ok none) ∧
    (∀ u : Int,
      ((create_order m uid rid items total addr pay f).bind
        (fun p => get_user_orders p.2 u noExecFaults)).map Prod.fst =
        .ok (some (userOrdersRows m.committed u)) ∨
      ((create_order m uid rid items total addr pay f).bind
        (fun p => get_user_orders p.2 u noExecFaults)).map Prod.fst = .ok none) := by
  have hloop : itemLoopFails items f.itemInsertFails = true :=
    (itemLoopFails_iff items f.itemInsertFails).mpr hfail
  obtain ⟨sd, hsd⟩ := insertItems_of_fault
    (insertOrderRow m.pending uid rid total addr pay).2 items
    (insertOrderRow m.pending uid rid total addr pay).1 f.itemInsertFails hloop
  have hfilter : m.committed.order_items.filter
      (fun it => it.order_id == m.committed.nextOrderId) = [] := by
    rw [List.filter_eq_nil_iff]
    intro it hit
    simpa [beq_eq_false_iff_ne] using hfresh it hit
  refine ⟨?_, ?_, ?_, ?_⟩
  · cases hrb : f.rollbackFail <;>
      simp [create_order, hconn, hcur, hord, hsd, hrb, rollbackAttempt, closeCursor,
        Except.map]
  · cases hrb : f.rollbackFail <;>
      simp [create_order, hconn, hcur, hord, hsd, hrb, rollbackAttempt, closeCursor,
        Except.map]
  · cases hrb : f.rollbackFail
    · left
      simp [create_order, hconn, hcur, hord, hsd, hrb, rollbackAttempt, closeCursor,
        Except.map, Except.bind, get_order_items, execute_query, noExecFaults,
        isSelect_orderItemsStmt, orderItemsStmt_run, orderItemsRows, orderItemsJoin,
        hfilter]
    · right
      simp [create_order, hconn, hcur, hord, hsd, hrb, rollbackAttempt, closeCursor,
        Except.map, Except.bind, get_order_items, execute_query]
  · intro u
    cases hrb : f.rollbackFail
    · left
      simp [create_order, hconn, hcur, hord, hsd, hrb, rollbackAttempt, closeCursor,
        Except.map, Except.bind, get_user_orders, execute_query, noExecFaults,
        isSelect_userOrdersStmt, userOrdersStmt_run]
    · right
      simp [create_order, hconn, hcur, hord, hsd, hrb, rollbackAttempt, closeCursor,
        Except.map, Except.bind, get_user_orders, execute_query]

/-- Witness for C1: the second of two line-item inserts fails on the sample
store; nothing of the attempt is committed or readable afterwards. -/
theorem create_order_atomic_on_item_failure_witness :
    (create_order sampleMgr 7 3 [⟨1, 2, 10⟩, ⟨2, 1, 5⟩] 25 "12 Main St" "cash"
        ⟨false, false, [false, true], false, false⟩).map Prod.fst = .ok none ∧
    (create_order sampleMgr 7 3 [⟨1, 2, 10⟩, ⟨2, 1, 5⟩] 25 "12 Main St" "cash"
        ⟨false, false, [false, true], false, false⟩).map (fun p => p.2.committed) =
      .ok sampleMgr.committed ∧
    (((create_order sampleMgr 7 3 [⟨1, 2, 10⟩, ⟨2, 1, 5⟩] 25 "12 Main St" "cash"
        ⟨false, false, [false, true], false, false⟩).bind
        (fun p => get_order_items p.2 sampleMgr.committed.nextOrderId noExecFaults)).map
        Prod.fst = .ok (some []) ∨
      ((create_order sampleMgr 7 3 [⟨1, 2, 10⟩, ⟨2, 1, 5⟩] 25 "12 Main St" "cash"
        ⟨false, false, [false, true], false, false⟩).bind
        (fun p => get_order_items p.2 sampleMgr.committed.nextOrderId noExecFaults)).map
        Prod.fst = .ok none) ∧
    (∀ u : Int,
      ((create_order sampleMgr 7 3 [⟨1, 2, 10⟩, ⟨2, 1, 5⟩] 25 "12 Main St" "cash"
        ⟨false, false, [false, true], false, false⟩).bind
        (fun p => get_user_orders p.2 u noExecFaults)).map Prod.fst =
        .ok (some (userOrdersRows sampleMgr.committed u)) ∨
      ((create_order sampleMgr 7 3 [⟨1, 2, 10⟩, ⟨2, 1, 5⟩] 25 "12 Main St" "cash"
        ⟨false, false, [false, true], false, false⟩).bind
        (fun p => get_user_orders p.2 u noExecFaults)).map Prod.fst = .ok none) :=
  create_order_atomic_on_item_failure sampleMgr 7 3 [⟨1, 2, 10⟩, ⟨2, 1, 5⟩] 25
    "12 Main St" "cash" ⟨false, false, [false, true], false, false⟩
    rfl rfl rfl rfl ⟨1, by decide, rfl⟩ (by decide)

end FoodDelivery
